import Mathlib

/-!
# The badger logging facade (`vendor/github.com/dgraph-io/badger/logger.go`)

A shallow embedding of the package-level logger of badger and of the
configuration-scoped logging methods of `Options`, followed by the properties
of the facade.

Modelling decisions, all of them visible in the definitions below.

* The package variable `badgerLogger` is an interface value: it is `nil` or it
  holds a logger.  It is an `Option Logger`.
* A logger is either the package's own `defaultLogger` or an implementation
  supplied from outside the file.  Calling a method of a logger is recorded as
  an observable event (the receiver, the method, the format and the
  arguments), and then the body of the method runs.
* The body of a method of the default logger is in the file (`defaultLog.Errorf`
  and its siblings).  The body of a method of an outside logger is not; it is a
  parameter of the embedding, `Bodies`.  Such a body is code of the caller: it
  may call the exported `SetLogger` and `UseDefaultLogger`, it may assign the
  exported field `Logger` of an `Options` object, and it may panic (a method
  with a pointer receiver invoked on a nil pointer held in a non-nil interface
  value does).  What it does may depend on the calls made so far.
* The calls received and the sink requests recorded for a call of a logging
  function are those that this call itself makes.  When a body calls back into
  the logging functions, that is a call of its own; what it writes and whether
  it panics are part of what the body does.
* The default logger wraps a `*log.Logger` of the standard library.  A call of
  its `Printf` is recorded as a request on the sink: the format and the
  arguments handed over.
* A method invoked through a `nil` interface value, or a field read through a
  `nil` `*Options`, is a run-time panic.  No function of the file recovers
  from a panic, so a panic raised in a logger's method leaves through the
  logging function that called it.  A function that can panic returns
  `Except Panic State`; the `Panic` holds the state the program is left in.
* `Options` is declared in another file of the package; only its `Logger`
  field is read here.  Objects of type `Options` live in a store indexed by
  address, and a `*Options` is `none` (the nil pointer) or an address.
-/

namespace Badger

/-- A value passed in the variadic `...interface{}` tail of a logging call. -/
inductive Value where
  | int (n : Int)
  | str (s : String)
  | bool (b : Bool)
  | other (tag : Nat)
  deriving DecidableEq, Repr

/-- The three methods of the `Logger` interface. -/
inductive Method where
  | Errorf
  | Infof
  | Warningf
  deriving DecidableEq, Repr

/-- A non-nil value of the interface type `Logger`: the package's own
`defaultLogger`, or an implementation from outside the file. -/
inductive Logger where
  | defaultLogger
  | external (id : Nat)
  deriving DecidableEq, Repr

/-- One method invocation received by a logger. -/
structure Call where
  receiver : Logger
  method : Method
  format : String
  args : List Value
  deriving DecidableEq, Repr

/-- One `Printf` request on the `*log.Logger` wrapped by the default logger. -/
structure PrintfRequest where
  format : String
  args : List Value
  deriving DecidableEq, Repr

/-- The part of `Options` that `logger.go` reads: the `Logger` field. -/
structure Options where
  Logger : Option Logger
  deriving DecidableEq, Repr

/-- Pointer type `*Options`: the nil pointer or the address of an `Options` object. -/
abbrev OptionsPtr := Option Nat

/-- The program state: the package variable `badgerLogger`, the `Options`
objects, the calls received by loggers so far and the requests made on the
default sink so far. -/
structure State where
  badgerLogger : Option Logger
  options : Nat → Options
  received : List Call
  sink : List PrintfRequest

/-- The two ways a logging call fails: a nil dereference in a function of the
file, or a panic raised by the body of an outside logger's method. -/
inductive Failure where
  | nilDereference
  | loggerPanic
  deriving DecidableEq, Repr

/-- A panic: its kind and the state the program is left in. -/
structure Panic where
  failure : Failure
  state : State

/-- Embeds `l.Printf(format, v...)` on the wrapped `*log.Logger`. -/
def Printf (format : String) (v : List Value) (s : State) : State :=
  { s with sink := s.sink ++ [⟨format, v⟩] }

/-- Embeds `func (l *defaultLog) Errorf(f string, v ...interface{})`. -/
def defaultLog.Errorf (f : String) (v : List Value) (s : State) : State :=
  Printf ("ERROR: " ++ f) v s

/-- Embeds `func (l *defaultLog) Infof(f string, v ...interface{})`. -/
def defaultLog.Infof (f : String) (v : List Value) (s : State) : State :=
  Printf ("INFO: " ++ f) v s

/-- Embeds `func (l *defaultLog) Warningf(f string, v ...interface{})`. -/
def defaultLog.Warningf (f : String) (v : List Value) (s : State) : State :=
  Printf ("WARNING: " ++ f) v s

/-- Embeds `func SetLogger(l Logger) { badgerLogger = l }`; the argument may be nil. -/
def SetLogger (l : Option Logger) (s : State) : State :=
  { s with badgerLogger := l }

/-- Embeds `func UseDefaultLogger() { SetLogger(defaultLogger) }`. -/
def UseDefaultLogger (s : State) : State :=
  SetLogger (some .defaultLogger) s

/-- Embeds `func init() { UseDefaultLogger() }`. -/
def init (s : State) : State :=
  UseDefaultLogger s

/-- One write that the body of an outside logger's method can make to the
state this file reads: a call of the exported `SetLogger` (a call of
`UseDefaultLogger` is `SetLogger` of the default logger), or an assignment to
the exported `Logger` field of the `Options` object at an address. -/
inductive Write where
  | SetLogger (l : Option Logger)
  | assignOptionsLogger (a : Nat) (l : Option Logger)
  deriving DecidableEq, Repr

/-- The body of a method of an outside logger, as far as this file can see it:
the writes it makes, in order, and whether it then panics or returns. -/
structure Body where
  writes : List Write
  panics : Bool
  deriving DecidableEq, Repr

/-- The outside loggers: for the logger `id`, the method, the format and the
arguments of a call, and the calls made before it, the body that runs. -/
abbrev Bodies := Nat → Method → String → List Value → List Call → Body

/-- Runs one write of a body. -/
def Write.apply : Write → State → State
  | .SetLogger l, s => Badger.SetLogger l s
  | .assignOptionsLogger a l, s =>
    { s with options := fun b => if b = a then ⟨l⟩ else s.options b }

/-- Runs the writes of a body, first to last. -/
def runWrites : List Write → State → State
  | [], s => s
  | w :: ws, s => runWrites ws (w.apply s)

/-- Runs a body: its writes, then its return or its panic. -/
def Body.run (b : Body) (s : State) : Except Panic State :=
  match b.panics with
  | true => .error ⟨.loggerPanic, runWrites b.writes s⟩
  | false => .ok (runWrites b.writes s)

/-- Records that logger `l` received a call of method `m`. -/
def State.deliver (s : State) (l : Logger) (m : Method) (format : String)
    (v : List Value) : State :=
  { s with received := s.received ++ [⟨l, m, format, v⟩] }

/-- Dynamic dispatch of `l.Errorf(format, v...)` on a non-nil interface value:
the call is received by `l` and the body of its `Errorf` runs. -/
def Logger.Errorf (l : Logger) (B : Bodies) (format : String) (v : List Value)
    (s : State) : Except Panic State :=
  match l with
  | .defaultLogger => .ok (defaultLog.Errorf format v (s.deliver l .Errorf format v))
  | .external id => (B id .Errorf format v s.received).run (s.deliver l .Errorf format v)

/-- Dynamic dispatch of `l.Infof(format, v...)` on a non-nil interface value:
the call is received by `l` and the body of its `Infof` runs. -/
def Logger.Infof (l : Logger) (B : Bodies) (format : String) (v : List Value)
    (s : State) : Except Panic State :=
  match l with
  | .defaultLogger => .ok (defaultLog.Infof format v (s.deliver l .Infof format v))
  | .external id => (B id .Infof format v s.received).run (s.deliver l .Infof format v)

/-- Dynamic dispatch of `l.Warningf(format, v...)` on a non-nil interface
value: the call is received by `l` and the body of its `Warningf` runs. -/
def Logger.Warningf (l : Logger) (B : Bodies) (format : String) (v : List Value)
    (s : State) : Except Panic State :=
  match l with
  | .defaultLogger => .ok (defaultLog.Warningf format v (s.deliver l .Warningf format v))
  | .external id => (B id .Warningf format v s.received).run (s.deliver l .Warningf format v)

/-- Embeds `func Errorf(format string, v ...interface{})`, the global path. -/
def Errorf (B : Bodies) (format : String) (v : List Value) (s : State) :
    Except Panic State :=
  match s.badgerLogger with
  | none => .error ⟨.nilDereference, s⟩
  | some l => l.Errorf B format v s

/-- Embeds `func Infof(format string, v ...interface{})`, the global path. -/
def Infof (B : Bodies) (format : String) (v : List Value) (s : State) :
    Except Panic State :=
  match s.badgerLogger with
  | none => .error ⟨.nilDereference, s⟩
  | some l => l.Infof B format v s

/-- Embeds `func Warningf(format string, v ...interface{})`, the global path. -/
def Warningf (B : Bodies) (format : String) (v : List Value) (s : State) :
    Except Panic State :=
  match s.badgerLogger with
  | none => .error ⟨.nilDereference, s⟩
  | some l => l.Warningf B format v s

/-- Embeds `func (opt *Options) Errorf(format string, v ...interface{})`. -/
def Options.Errorf (B : Bodies) (opt : OptionsPtr) (format : String) (v : List Value)
    (s : State) : Except Panic State :=
  match opt with
  | none => .error ⟨.nilDereference, s⟩
  | some a =>
    match (s.options a).Logger with
    | some l => l.Errorf B format v s
    | none => Badger.Errorf B format v s

/-- Embeds `func (opt *Options) Infof(format string, v ...interface{})`. -/
def Options.Infof (B : Bodies) (opt : OptionsPtr) (format : String) (v : List Value)
    (s : State) : Except Panic State :=
  match opt with
  | none => .error ⟨.nilDereference, s⟩
  | some a =>
    match (s.options a).Logger with
    | some l => l.Infof B format v s
    | none => Badger.Infof B format v s

/-- Embeds `func (opt *Options) Warningf(format string, v ...interface{})`. -/
def Options.Warningf (B : Bodies) (opt : OptionsPtr) (format : String) (v : List Value)
    (s : State) : Except Panic State :=
  match opt with
  | none => .error ⟨.nilDereference, s⟩
  | some a =>
    match (s.options a).Logger with
    | some l => l.Warningf B format v s
    | none => Badger.Warningf B format v s

/-- The state before `init` runs: `badgerLogger` holds the zero value of its
type (nil), nothing has been logged; `opts` are the `Options` objects. -/
def zeroState (opts : Nat → Options) : State :=
  { badgerLogger := none, options := opts, received := [], sink := [] }

/-- The state reached by package initialisation. -/
def postInit (opts : Nat → Options) : State :=
  init (zeroState opts)

/-- The state a call leaves the program in, whether it returned or panicked. -/
def finalState : Except Panic State → State
  | .ok s => s
  | .error p => p.state

/-- The failure of a call: `none` when it returned. -/
def failureOf : Except Panic State → Option Failure
  | .ok _ => none
  | .error p => some p.failure

/-- The body that runs when method `m` of logger `l` is called with `format`
and `v` after the calls `h`; the methods of the default logger make no write
and return. -/
def Logger.body (l : Logger) (B : Bodies) (m : Method) (format : String)
    (v : List Value) (h : List Call) : Body :=
  match l with
  | .defaultLogger => ⟨[], false⟩
  | .external id => B id m format v h

/-- The failure a body ends in: `none` when it returns. -/
def Body.failure (b : Body) : Option Failure :=
  match b.panics with
  | true => some .loggerPanic
  | false => none

/-- The calls that logger `l` has received in state `s`. -/
def callsTo (l : Logger) (s : State) : List Call :=
  s.received.filter (fun c => decide (c.receiver = l))

/-- A call that writes the package variable `badgerLogger`. -/
inductive Setter where
  | SetLogger (l : Option Logger)
  | UseDefaultLogger
  deriving DecidableEq, Repr

/-- Runs one writer of `badgerLogger`. -/
def Setter.apply : Setter → State → State
  | .SetLogger l, s => Badger.SetLogger l s
  | .UseDefaultLogger, s => Badger.UseDefaultLogger s

/-- The logger a writer asks for: the argument of `SetLogger`, the default
logger for `UseDefaultLogger`. -/
def Setter.argument : Setter → Option Logger
  | .SetLogger l => l
  | .UseDefaultLogger => some .defaultLogger

/-- Runs a sequence of writers of `badgerLogger`, first to last. -/
def applySetters : List Setter → State → State
  | [], s => s
  | w :: ws, s => applySetters ws (w.apply s)

/-- One call of a public operation of the file. -/
inductive Op where
  | setter (w : Setter)
  | Errorf (format : String) (v : List Value)
  | Infof (format : String) (v : List Value)
  | Warningf (format : String) (v : List Value)
  | optErrorf (opt : OptionsPtr) (format : String) (v : List Value)
  | optInfof (opt : OptionsPtr) (format : String) (v : List Value)
  | optWarningf (opt : OptionsPtr) (format : String) (v : List Value)
  deriving DecidableEq, Repr

/-- Runs one public operation. -/
def step (B : Bodies) : Op → State → Except Panic State
  | .setter w, s => .ok (w.apply s)
  | .Errorf format v, s => Badger.Errorf B format v s
  | .Infof format v, s => Badger.Infof B format v s
  | .Warningf format v, s => Badger.Warningf B format v s
  | .optErrorf opt format v, s => Options.Errorf B opt format v s
  | .optInfof opt format v, s => Options.Infof B opt format v s
  | .optWarningf opt format v, s => Options.Warningf B opt format v s

/-- The states a program goes through when it performs `ops` in order from
`s`: `s` itself, then the state after each operation; a panic ends the run, in
the state the panic leaves. -/
def trajectory (B : Bodies) : List Op → State → List State
  | [], s => [s]
  | op :: ops, s =>
    s :: (match step B op s with
      | .error p => [p.state]
      | .ok s' => trajectory B ops s')

/-- The text of `fmt.Sprintf(format, v...)` of the standard library, on the
fragment made of literal text, the verbs `%d` on an integer and `%s` on a
string, and `%%`; `none` outside that fragment. -/
def sprintfChars : List Char → List Value → Option (List Char)
  | [], [] => some []
  | [], _ :: _ => none
  | c :: rest, vs =>
    if c = '%' then
      match rest, vs with
      | d :: rest', vs =>
        if d = '%' then (sprintfChars rest' vs).map (fun out => '%' :: out)
        else if d = 'd' then
          match vs with
          | .int n :: vs' => (sprintfChars rest' vs').map (fun out => (toString n).data ++ out)
          | _ => none
        else if d = 's' then
          match vs with
          | .str t :: vs' => (sprintfChars rest' vs').map (fun out => t.data ++ out)
          | _ => none
        else none
      | [], _ => none
    else (sprintfChars rest vs).map (fun out => c :: out)

/-- The message a `Printf` request puts on its line, on the fragment of
`sprintfChars`. -/
def PrintfRequest.message (r : PrintfRequest) : Option String :=
  (sprintfChars r.format.data r.args).map String.mk

/-- A state with global logger `g`, in which every `Options` object has the
`Logger` field `o`, and nothing has been logged. -/
def routedState (g o : Option Logger) : State :=
  { badgerLogger := g
    options := fun _ => ⟨o⟩
    received := []
    sink := [] }

/-- The outcome `r` of a logging call fails in exactly these ways: with a nil
dereference exactly when `nilCase` holds; otherwise some logger `l` with
`invoked l` had its method called, and `r` fails exactly as the body `bodyOf l`
of that method does (with a logger panic when it panics, not at all when it
returns). -/
def FailsExactlyWhen (r : Except Panic State) (nilCase : Prop) (invoked : Logger → Prop)
    (bodyOf : Logger → Body) : Prop :=
  (failureOf r = some .nilDereference ↔ nilCase) ∧
  (¬ nilCase → ∃ l, invoked l) ∧
  (∀ l, invoked l → failureOf r = (bodyOf l).failure)

/-- The outcome `r` of a logging call is a nil-dereference panic exactly when
`nilCase` holds, and a normal return otherwise. -/
def FailsOnlyWhen (r : Except Panic State) (nilCase : Prop) : Prop :=
  (failureOf r = some .nilDereference ↔ nilCase) ∧ (¬ nilCase → ∃ s', r = .ok s')

/-- The outcome `r` of a logging call made in state `s` has the global logger
and the `Options` objects that the writes of the invoked method, run from `s`,
produce: the logging function itself writes neither. -/
def RoutingWrittenBy (r : Except Panic State) (s : State) (invoked : Logger → Prop)
    (bodyOf : Logger → Body) : Prop :=
  ∀ l, invoked l →
    (finalState r).badgerLogger = (runWrites (bodyOf l).writes s).badgerLogger ∧
    (finalState r).options = (runWrites (bodyOf l).writes s).options

/-- The outcome `r` of a call made in state `s` has the same `badgerLogger` and
the same `Options` objects as `s`. -/
def KeepsRouting (r : Except Panic State) (s : State) : Prop :=
  (finalState r).badgerLogger = s.badgerLogger ∧ (finalState r).options = s.options

/-- The logger a configuration-scoped call on the `Options` object at address
`a` invokes: the override when there is one, the global logger otherwise. -/
def optCallee (s : State) (a : Nat) : Option Logger :=
  match (s.options a).Logger with
  | some l => some l
  | none => s.badgerLogger

/-- Outside loggers whose methods make no write and return. -/
def quietBodies : Bodies :=
  fun _ _ _ _ _ => ⟨[], false⟩

/-- Outside loggers among which logger 9 calls `SetLogger` with logger 8 from
each of its methods, logger 13 panics in each of its methods (a nil pointer
in a non-nil interface value), and the others make no write and return. -/
def sampleBodies : Bodies :=
  fun id _ _ _ _ =>
    if id = 9 then ⟨[.SetLogger (some (.external 8))], false⟩
    else if id = 13 then ⟨[], true⟩
    else ⟨[], false⟩

/-! ## Bodies of outside loggers -/

theorem runWrites_received (ws : List Write) (s : State) :
    (runWrites ws s).received = s.received := by
  induction ws generalizing s with
  | nil => rfl
  | cons w ws ih => cases w <;> simp [runWrites, ih, Write.apply, SetLogger]

theorem runWrites_sink (ws : List Write) (s : State) :
    (runWrites ws s).sink = s.sink := by
  induction ws generalizing s with
  | nil => rfl
  | cons w ws ih => cases w <;> simp [runWrites, ih, Write.apply, SetLogger]

theorem runWrites_routing_congr (ws : List Write) (s t : State)
    (hg : s.badgerLogger = t.badgerLogger) (ho : s.options = t.options) :
    (runWrites ws s).badgerLogger = (runWrites ws t).badgerLogger ∧
      (runWrites ws s).options = (runWrites ws t).options := by
  induction ws generalizing s t with
  | nil => exact ⟨hg, ho⟩
  | cons w ws ih =>
    cases w with
    | SetLogger l => exact ih _ _ rfl ho
    | assignOptionsLogger a l =>
      refine ih _ _ hg ?_
      simp only [Write.apply]
      rw [ho]

theorem finalState_run (b : Body) (s : State) :
    finalState (b.run s) = runWrites b.writes s := by
  unfold Body.run
  cases b.panics <;> rfl

theorem failureOf_run (b : Body) (s : State) :
    failureOf (b.run s) = b.failure := by
  unfold Body.run Body.failure
  cases b.panics <;> rfl

theorem failureOf_eq_none_iff (r : Except Panic State) :
    failureOf r = none ↔ ∃ s', r = .ok s' := by
  cases r with
  | error p => simp [failureOf]
  | ok s' => simp [failureOf]

/-! ## Dispatch lemmas -/

theorem dispatchErrorf_received (l : Logger) (B : Bodies) (format : String)
    (v : List Value) (s : State) :
    (finalState (l.Errorf B format v s)).received = s.received ++ [⟨l, .Errorf, format, v⟩] := by
  cases l with
  | defaultLogger => rfl
  | external id =>
    simp only [Logger.Errorf, finalState_run, runWrites_received]
    rfl

theorem dispatchErrorf_sink (id : Nat) (B : Bodies) (format : String)
    (v : List Value) (s : State) :
    (finalState ((Logger.external id).Errorf B format v s)).sink = s.sink := by
  simp only [Logger.Errorf, finalState_run, runWrites_sink]
  rfl

theorem dispatchErrorf_failure (l : Logger) (B : Bodies) (format : String)
    (v : List Value) (s : State) :
    failureOf (l.Errorf B format v s) = (l.body B .Errorf format v s.received).failure := by
  cases l with
  | defaultLogger => rfl
  | external id => simp only [Logger.Errorf, failureOf_run, Logger.body]

theorem dispatchErrorf_routing (l : Logger) (B : Bodies) (format : String)
    (v : List Value) (s : State) :
    (finalState (l.Errorf B format v s)).badgerLogger
        = (runWrites (l.body B .Errorf format v s.received).writes s).badgerLogger ∧
      (finalState (l.Errorf B format v s)).options
        = (runWrites (l.body B .Errorf format v s.received).writes s).options := by
  cases l with
  | defaultLogger => exact ⟨rfl, rfl⟩
  | external id =>
    simp only [Logger.Errorf, finalState_run, Logger.body]
    exact runWrites_routing_congr _ _ _ rfl rfl

theorem dispatchInfof_received (l : Logger) (B : Bodies) (format : String)
    (v : List Value) (s : State) :
    (finalState (l.Infof B format v s)).received = s.received ++ [⟨l, .Infof, format, v⟩] := by
  cases l with
  | defaultLogger => rfl
  | external id =>
    simp only [Logger.Infof, finalState_run, runWrites_received]
    rfl

theorem dispatchInfof_sink (id : Nat) (B : Bodies) (format : String)
    (v : List Value) (s : State) :
    (finalState ((Logger.external id).Infof B format v s)).sink = s.sink := by
  simp only [Logger.Infof, finalState_run, runWrites_sink]
  rfl

theorem dispatchInfof_failure (l : Logger) (B : Bodies) (format : String)
    (v : List Value) (s : State) :
    failureOf (l.Infof B format v s) = (l.body B .Infof format v s.received).failure := by
  cases l with
  | defaultLogger => rfl
  | external id => simp only [Logger.Infof, failureOf_run, Logger.body]

theorem dispatchInfof_routing (l : Logger) (B : Bodies) (format : String)
    (v : List Value) (s : State) :
    (finalState (l.Infof B format v s)).badgerLogger
        = (runWrites (l.body B .Infof format v s.received).writes s).badgerLogger ∧
      (finalState (l.Infof B format v s)).options
        = (runWrites (l.body B .Infof format v s.received).writes s).options := by
  cases l with
  | defaultLogger => exact ⟨rfl, rfl⟩
  | external id =>
    simp only [Logger.Infof, finalState_run, Logger.body]
    exact runWrites_routing_congr _ _ _ rfl rfl

theorem dispatchWarningf_received (l : Logger) (B : Bodies) (format : String)
    (v : List Value) (s : State) :
    (finalState (l.Warningf B format v s)).received = s.received ++ [⟨l, .Warningf, format, v⟩] := by
  cases l with
  | defaultLogger => rfl
  | external id =>
    simp only [Logger.Warningf, finalState_run, runWrites_received]
    rfl

theorem dispatchWarningf_sink (id : Nat) (B : Bodies) (format : String)
    (v : List Value) (s : State) :
    (finalState ((Logger.external id).Warningf B format v s)).sink = s.sink := by
  simp only [Logger.Warningf, finalState_run, runWrites_sink]
  rfl

theorem dispatchWarningf_failure (l : Logger) (B : Bodies) (format : String)
    (v : List Value) (s : State) :
    failureOf (l.Warningf B format v s) = (l.body B .Warningf format v s.received).failure := by
  cases l with
  | defaultLogger => rfl
  | external id => simp only [Logger.Warningf, failureOf_run, Logger.body]

theorem dispatchWarningf_routing (l : Logger) (B : Bodies) (format : String)
    (v : List Value) (s : State) :
    (finalState (l.Warningf B format v s)).badgerLogger
        = (runWrites (l.body B .Warningf format v s.received).writes s).badgerLogger ∧
      (finalState (l.Warningf B format v s)).options
        = (runWrites (l.body B .Warningf format v s.received).writes s).options := by
  cases l with
  | defaultLogger => exact ⟨rfl, rfl⟩
  | external id =>
    simp only [Logger.Warningf, finalState_run, Logger.body]
    exact runWrites_routing_congr _ _ _ rfl rfl

theorem callsTo_append_other (r : Logger) (s : State) (c : Call) (h : c.receiver ≠ r) :
    (s.received ++ [c]).filter (fun c => decide (c.receiver = r)) = callsTo r s := by
  simp [callsTo, List.filter_append, h]

/-! ## C1: a logger installed with `SetLogger` receives the global-path calls -/

/-- C1: after `SetLogger(l)`, one global-path `Errorf(fmt, args)` (likewise
`Infof`, `Warningf`) leaves the calls received by loggers as the earlier ones
followed by exactly one new call, whose receiver is `l`, whose method is the
corresponding one, and whose format and arguments are `fmt` and `args` as
passed, whatever the bodies of the outside loggers do; when `l` is an outside
logger nothing is requested of the default sink, so nothing has been
formatted; and the call returns normally exactly when the method of `l` that
it invoked does. -/
theorem SetLogger_then_call_received (B : Bodies) (l : Logger) (fmt : String)
    (args : List Value) (s : State) :
    ((finalState (Errorf B fmt args (SetLogger (some l) s))).received
        = s.received ++ [⟨l, .Errorf, fmt, args⟩]) ∧
    ((finalState (Infof B fmt args (SetLogger (some l) s))).received
        = s.received ++ [⟨l, .Infof, fmt, args⟩]) ∧
    ((finalState (Warningf B fmt args (SetLogger (some l) s))).received
        = s.received ++ [⟨l, .Warningf, fmt, args⟩]) ∧
    (l ≠ .defaultLogger →
      (finalState (Errorf B fmt args (SetLogger (some l) s))).sink = s.sink ∧
      (finalState (Infof B fmt args (SetLogger (some l) s))).sink = s.sink ∧
      (finalState (Warningf B fmt args (SetLogger (some l) s))).sink = s.sink) ∧
    (failureOf (Errorf B fmt args (SetLogger (some l) s))
        = (l.body B .Errorf fmt args s.received).failure) ∧
    (failureOf (Infof B fmt args (SetLogger (some l) s))
        = (l.body B .Infof fmt args s.received).failure) ∧
    (failureOf (Warningf B fmt args (SetLogger (some l) s))
        = (l.body B .Warningf fmt args s.received).failure) := by
  refine ⟨?_, ?_, ?_, ?_, ?_, ?_, ?_⟩
  · exact dispatchErrorf_received l B fmt args (SetLogger (some l) s)
  · exact dispatchInfof_received l B fmt args (SetLogger (some l) s)
  · exact dispatchWarningf_received l B fmt args (SetLogger (some l) s)
  · intro hl
    cases l with
    | defaultLogger => exact absurd rfl hl
    | external id =>
      exact ⟨dispatchErrorf_sink id B fmt args (SetLogger (some (.external id)) s),
        dispatchInfof_sink id B fmt args (SetLogger (some (.external id)) s),
        dispatchWarningf_sink id B fmt args (SetLogger (some (.external id)) s)⟩
  · exact dispatchErrorf_failure l B fmt args (SetLogger (some l) s)
  · exact dispatchInfof_failure l B fmt args (SetLogger (some l) s)
  · exact dispatchWarningf_failure l B fmt args (SetLogger (some l) s)

/-- C1, end to end: a capturing logger installed with `SetLogger` receives
`Infof("job %s done in %dms", "build", 42)` as that format and those two
arguments, the default sink is asked nothing, and the call returns. -/
theorem SetLogger_then_call_received_witness :
    (finalState (Infof quietBodies "job %s done in %dms" [.str "build", .int 42]
        (SetLogger (some (.external 7)) (postInit (fun _ => ⟨none⟩))))).received
      = [] ++ [⟨.external 7, .Infof, "job %s done in %dms", [.str "build", .int 42]⟩] ∧
    (finalState (Infof quietBodies "job %s done in %dms" [.str "build", .int 42]
        (SetLogger (some (.external 7)) (postInit (fun _ => ⟨none⟩))))).sink
      = [] ∧
    failureOf (Infof quietBodies "job %s done in %dms" [.str "build", .int 42]
        (SetLogger (some (.external 7)) (postInit (fun _ => ⟨none⟩)))) = none :=
  ⟨(SetLogger_then_call_received quietBodies (.external 7) "job %s done in %dms"
      [.str "build", .int 42] (postInit (fun _ => ⟨none⟩))).2.1,
   ((SetLogger_then_call_received quietBodies (.external 7) "job %s done in %dms"
      [.str "build", .int 42] (postInit (fun _ => ⟨none⟩))).2.2.2.1 (by decide)).2.1,
   (SetLogger_then_call_received quietBodies (.external 7) "job %s done in %dms"
      [.str "build", .int 42] (postInit (fun _ => ⟨none⟩))).2.2.2.2.2.1⟩

/-! ## C2: an override logger shadows the global logger -/

/-- C2, as stated, fails when the override and the global logger are one and
the same logger: `opt.Errorf` returns normally and the logger held by the
global singleton, which had received nothing, has received the call.  It also
fails in its last part when the `Errorf` of the override panics: the call does
not succeed. -/
theorem override_call_reaches_shared_global :
    ((routedState (some (.external 1)) (some (.external 1))).options 0).Logger
      = some (.external 1) ∧
    (routedState (some (.external 1)) (some (.external 1))).badgerLogger
      = some (.external 1) ∧
    callsTo (.external 1) (routedState (some (.external 1)) (some (.external 1))) = [] ∧
    callsTo (.external 1) (finalState (Options.Errorf quietBodies (some 0) "disk full" []
        (routedState (some (.external 1)) (some (.external 1)))))
      = [⟨.external 1, .Errorf, "disk full", []⟩] ∧
    failureOf (Options.Errorf quietBodies (some 0) "disk full" []
        (routedState (some (.external 1)) (some (.external 1)))) = none ∧
    failureOf (Options.Errorf sampleBodies (some 0) "disk full" []
        (routedState (some .defaultLogger) (some (.external 13)))) = some .loggerPanic := by
  refine ⟨rfl, rfl, rfl, rfl, rfl, rfl⟩

/-- C2, amended: when the `Logger` field of the `Options` object holds a
non-nil override `m`, then whatever the global logger is (nil included) and
whatever the bodies of the outside loggers do, `opt.Errorf(fmt, args)`
(likewise `opt.Infof`, `opt.Warningf`) leaves the calls received as the
earlier ones followed by exactly one call to the corresponding method of `m`
with the same `fmt` and `args`; every logger other than `m`, so the global
logger unless it is `m` itself, has received nothing new; and the call returns
normally exactly when the invoked method of `m` does, which does not depend on
the global logger. -/
theorem override_shadows_global (B : Bodies) (s : State) (a : Nat) (m : Logger)
    (fmt : String) (args : List Value) (h : (s.options a).Logger = some m) :
    ((finalState (Options.Errorf B (some a) fmt args s)).received
        = s.received ++ [⟨m, .Errorf, fmt, args⟩]) ∧
    ((finalState (Options.Infof B (some a) fmt args s)).received
        = s.received ++ [⟨m, .Infof, fmt, args⟩]) ∧
    ((finalState (Options.Warningf B (some a) fmt args s)).received
        = s.received ++ [⟨m, .Warningf, fmt, args⟩]) ∧
    (∀ g : Logger, g ≠ m →
      callsTo g (finalState (Options.Errorf B (some a) fmt args s)) = callsTo g s ∧
      callsTo g (finalState (Options.Infof B (some a) fmt args s)) = callsTo g s ∧
      callsTo g (finalState (Options.Warningf B (some a) fmt args s)) = callsTo g s) ∧
    (∀ g : Option Logger,
      failureOf (Options.Errorf B (some a) fmt args (SetLogger g s))
        = (m.body B .Errorf fmt args s.received).failure ∧
      failureOf (Options.Infof B (some a) fmt args (SetLogger g s))
        = (m.body B .Infof fmt args s.received).failure ∧
      failureOf (Options.Warningf B (some a) fmt args (SetLogger g s))
        = (m.body B .Warningf fmt args s.received).failure) := by
  have hE : ∀ t : State, (t.options a).Logger = some m →
      Options.Errorf B (some a) fmt args t = m.Errorf B fmt args t := by
    intro t ht; simp only [Options.Errorf, ht]
  have hI : ∀ t : State, (t.options a).Logger = some m →
      Options.Infof B (some a) fmt args t = m.Infof B fmt args t := by
    intro t ht; simp only [Options.Infof, ht]
  have hW : ∀ t : State, (t.options a).Logger = some m →
      Options.Warningf B (some a) fmt args t = m.Warningf B fmt args t := by
    intro t ht; simp only [Options.Warningf, ht]
  refine ⟨?_, ?_, ?_, ?_, ?_⟩
  · rw [hE s h]; exact dispatchErrorf_received m B fmt args s
  · rw [hI s h]; exact dispatchInfof_received m B fmt args s
  · rw [hW s h]; exact dispatchWarningf_received m B fmt args s
  · intro g hg
    have hne : m ≠ g := fun e => hg e.symm
    refine ⟨?_, ?_, ?_⟩
    · rw [hE s h, callsTo, dispatchErrorf_received]
      exact callsTo_append_other g s _ hne
    · rw [hI s h, callsTo, dispatchInfof_received]
      exact callsTo_append_other g s _ hne
    · rw [hW s h, callsTo, dispatchWarningf_received]
      exact callsTo_append_other g s _ hne
  · intro g
    refine ⟨?_, ?_, ?_⟩
    · rw [hE (SetLogger g s) h]; exact dispatchErrorf_failure m B fmt args (SetLogger g s)
    · rw [hI (SetLogger g s) h]; exact dispatchInfof_failure m B fmt args (SetLogger g s)
    · rw [hW (SetLogger g s) h]; exact dispatchWarningf_failure m B fmt args (SetLogger g s)

/-- C2, amended, at a concrete input: with a nil global logger the override
receives the one call and the call returns normally. -/
theorem override_shadows_global_witness :
    ((routedState none (some (.external 2))).options 0).Logger = some (.external 2) ∧
    (routedState none (some (.external 2))).badgerLogger = none ∧
    (finalState (Options.Errorf quietBodies (some 0) "disk %s" [.str "full"]
        (routedState none (some (.external 2))))).received
      = [] ++ [⟨.external 2, .Errorf, "disk %s", [.str "full"]⟩] ∧
    failureOf (Options.Errorf quietBodies (some 0) "disk %s" [.str "full"]
        (SetLogger none (routedState none (some (.external 2))))) = none :=
  ⟨rfl, rfl,
    (override_shadows_global quietBodies (routedState none (some (.external 2))) 0
      (.external 2) "disk %s" [.str "full"] rfl).1,
    ((override_shadows_global quietBodies (routedState none (some (.external 2))) 0
      (.external 2) "disk %s" [.str "full"] rfl).2.2.2.2 none).1⟩

/-! ## C3: without an override the configuration-scoped call is the global call -/

/-- C3: when the `Logger` field of the `Options` object is nil, `opt.Warningf(fmt, args)`
has the outcome of the global-path `Warningf(fmt, args)`: the same panic in the
same state, or the same resulting state (same calls received, same sink
requests, same routing), whatever the bodies of the outside loggers do;
likewise `opt.Errorf` and `Errorf`, `opt.Infof` and `Infof`. -/
theorem no_override_is_global_path (B : Bodies) (s : State) (a : Nat) (fmt : String)
    (args : List Value) (h : (s.options a).Logger = none) :
    Options.Warningf B (some a) fmt args s = Warningf B fmt args s ∧
    Options.Errorf B (some a) fmt args s = Errorf B fmt args s ∧
    Options.Infof B (some a) fmt args s = Infof B fmt args s := by
  refine ⟨?_, ?_, ?_⟩
  · simp [Options.Warningf, h]
  · simp [Options.Errorf, h]
  · simp [Options.Infof, h]

/-- C3 at a concrete input: after initialisation, with no override, the
configuration-scoped warning is the global-path warning, which reaches the
default logger. -/
theorem no_override_is_global_path_witness :
    ((postInit (fun _ => ⟨none⟩)).options 3).Logger = none ∧
    Options.Warningf sampleBodies (some 3) "slow %d" [.int 9] (postInit (fun _ => ⟨none⟩))
      = Warningf sampleBodies "slow %d" [.int 9] (postInit (fun _ => ⟨none⟩)) ∧
    (Warningf sampleBodies "slow %d" [.int 9] (postInit (fun _ => ⟨none⟩))).map State.sink
      = .ok [⟨"WARNING: slow %d", [.int 9]⟩] :=
  ⟨rfl, (no_override_is_global_path sampleBodies (postInit (fun _ => ⟨none⟩)) 3 "slow %d"
      [.int 9] rfl).1, rfl⟩

/-! ## C4: the default logger tags the format with its severity -/

theorem tagged_formats_apart (f g : String) :
    "ERROR: " ++ f ≠ "INFO: " ++ g ∧ "ERROR: " ++ f ≠ "WARNING: " ++ g ∧
      "INFO: " ++ f ≠ "WARNING: " ++ g := by
  refine ⟨?_, ?_, ?_⟩ <;> intro h <;> have h2 := congrArg String.data h <;>
    simp [String.data_append] at h2

/-- C4: `defaultLog.Errorf(f, v)`, `Infof(f, v)` and `Warningf(f, v)` each add
exactly one `Printf` request to the wrapped sink, whose format is `"ERROR: "`,
`"INFO: "` or `"WARNING: "` respectively put in front of `f` and whose
arguments are `v`, and they touch nothing else; the three tags are pairwise
distinct, and so are the formats handed to the sink by two methods of
different severity, whatever the caller's formats. -/
theorem defaultLog_tags (f : String) (v : List Value) (s : State) :
    defaultLog.Errorf f v s = { s with sink := s.sink ++ [⟨"ERROR: " ++ f, v⟩] } ∧
    defaultLog.Infof f v s = { s with sink := s.sink ++ [⟨"INFO: " ++ f, v⟩] } ∧
    defaultLog.Warningf f v s = { s with sink := s.sink ++ [⟨"WARNING: " ++ f, v⟩] } ∧
    ("ERROR: " ≠ "INFO: " ∧ "ERROR: " ≠ "WARNING: " ∧ "INFO: " ≠ "WARNING: ") ∧
    (∀ g : String, ∀ w : List Value,
      (defaultLog.Errorf f v s).sink ≠ (defaultLog.Infof g w s).sink ∧
      (defaultLog.Errorf f v s).sink ≠ (defaultLog.Warningf g w s).sink ∧
      (defaultLog.Infof f v s).sink ≠ (defaultLog.Warningf g w s).sink) := by
  refine ⟨rfl, rfl, rfl, ⟨by decide, by decide, by decide⟩, ?_⟩
  intro g w
  have h := tagged_formats_apart f g
  refine ⟨?_, ?_, ?_⟩ <;>
    simp [defaultLog.Errorf, defaultLog.Infof, defaultLog.Warningf, Printf, h.1, h.2.1, h.2.2]

/-! ## C5: after initialisation the default logger is active -/

/-- C5: in the state reached by package initialisation the global logger is
the default logger, and for every `fmt` and `args` the global-path
`Infof(fmt, args)` returns normally having made exactly one request on the
default sink, with format `"INFO: " ++ fmt` and arguments `args`, whatever
outside loggers exist; for `Infof("x=%d", 5)` the message of that one line is
`INFO: x=5`. -/
theorem postInit_Infof_default_sink (B : Bodies) (opts : Nat → Options) (fmt : String)
    (args : List Value) :
    (postInit opts).badgerLogger = some .defaultLogger ∧
    (Infof B fmt args (postInit opts)).map State.sink = .ok [⟨"INFO: " ++ fmt, args⟩] ∧
    (Infof B "x=%d" [.int 5] (postInit opts)).map
        (fun s' => s'.sink.map PrintfRequest.message) = .ok [some "INFO: x=5"] := by
  refine ⟨rfl, rfl, rfl⟩

/-! ## Which logger a call invokes -/

theorem Errorf_of_nil (B : Bodies) (f : String) (v : List Value) (s : State)
    (h : s.badgerLogger = none) : Errorf B f v s = .error ⟨.nilDereference, s⟩ := by
  simp only [Errorf, h]

theorem Errorf_of_some (B : Bodies) (f : String) (v : List Value) (s : State) (l : Logger)
    (h : s.badgerLogger = some l) : Errorf B f v s = l.Errorf B f v s := by
  simp only [Errorf, h]

theorem optErrorf_of_nil (B : Bodies) (a : Nat) (f : String) (v : List Value) (s : State)
    (h : optCallee s a = none) :
    Options.Errorf B (some a) f v s = .error ⟨.nilDereference, s⟩ := by
  unfold optCallee at h
  cases ho : (s.options a).Logger with
  | some l => simp [ho] at h
  | none =>
    simp only [ho] at h
    simp only [Options.Errorf, ho, Errorf_of_nil B f v s h]

theorem optErrorf_of_some (B : Bodies) (a : Nat) (f : String) (v : List Value) (s : State)
    (l : Logger) (h : optCallee s a = some l) :
    Options.Errorf B (some a) f v s = l.Errorf B f v s := by
  unfold optCallee at h
  cases ho : (s.options a).Logger with
  | some l' =>
    simp only [ho, Option.some.injEq] at h
    subst h
    simp only [Options.Errorf, ho]
  | none =>
    simp only [ho] at h
    simp only [Options.Errorf, ho, Errorf_of_some B f v s l h]

theorem Infof_of_nil (B : Bodies) (f : String) (v : List Value) (s : State)
    (h : s.badgerLogger = none) : Infof B f v s = .error ⟨.nilDereference, s⟩ := by
  simp only [Infof, h]

theorem Infof_of_some (B : Bodies) (f : String) (v : List Value) (s : State) (l : Logger)
    (h : s.badgerLogger = some l) : Infof B f v s = l.Infof B f v s := by
  simp only [Infof, h]

theorem optInfof_of_nil (B : Bodies) (a : Nat) (f : String) (v : List Value) (s : State)
    (h : optCallee s a = none) :
    Options.Infof B (some a) f v s = .error ⟨.nilDereference, s⟩ := by
  unfold optCallee at h
  cases ho : (s.options a).Logger with
  | some l => simp [ho] at h
  | none =>
    simp only [ho] at h
    simp only [Options.Infof, ho, Infof_of_nil B f v s h]

theorem optInfof_of_some (B : Bodies) (a : Nat) (f : String) (v : List Value) (s : State)
    (l : Logger) (h : optCallee s a = some l) :
    Options.Infof B (some a) f v s = l.Infof B f v s := by
  unfold optCallee at h
  cases ho : (s.options a).Logger with
  | some l' =>
    simp only [ho, Option.some.injEq] at h
    subst h
    simp only [Options.Infof, ho]
  | none =>
    simp only [ho] at h
    simp only [Options.Infof, ho, Infof_of_some B f v s l h]

theorem Warningf_of_nil (B : Bodies) (f : String) (v : List Value) (s : State)
    (h : s.badgerLogger = none) : Warningf B f v s = .error ⟨.nilDereference, s⟩ := by
  simp only [Warningf, h]

theorem Warningf_of_some (B : Bodies) (f : String) (v : List Value) (s : State) (l : Logger)
    (h : s.badgerLogger = some l) : Warningf B f v s = l.Warningf B f v s := by
  simp only [Warningf, h]

theorem optWarningf_of_nil (B : Bodies) (a : Nat) (f : String) (v : List Value) (s : State)
    (h : optCallee s a = none) :
    Options.Warningf B (some a) f v s = .error ⟨.nilDereference, s⟩ := by
  unfold optCallee at h
  cases ho : (s.options a).Logger with
  | some l => simp [ho] at h
  | none =>
    simp only [ho] at h
    simp only [Options.Warningf, ho, Warningf_of_nil B f v s h]

theorem optWarningf_of_some (B : Bodies) (a : Nat) (f : String) (v : List Value) (s : State)
    (l : Logger) (h : optCallee s a = some l) :
    Options.Warningf B (some a) f v s = l.Warningf B f v s := by
  unfold optCallee at h
  cases ho : (s.options a).Logger with
  | some l' =>
    simp only [ho, Option.some.injEq] at h
    subst h
    simp only [Options.Warningf, ho]
  | none =>
    simp only [ho] at h
    simp only [Options.Warningf, ho, Warningf_of_some B f v s l h]

theorem Errorf_routing (B : Bodies) (f : String) (v : List Value) (s : State) :
    ∀ l, s.badgerLogger = some l →
      (finalState (Errorf B f v s)).badgerLogger
        = (runWrites (l.body B .Errorf f v s.received).writes s).badgerLogger ∧
      (finalState (Errorf B f v s)).options
        = (runWrites (l.body B .Errorf f v s.received).writes s).options := by
  intro l hl
  rw [Errorf_of_some B f v s l hl]
  exact dispatchErrorf_routing l B f v s

theorem Errorf_failure (B : Bodies) (f : String) (v : List Value) (s : State) :
    ∀ l, s.badgerLogger = some l →
      failureOf (Errorf B f v s) = (l.body B .Errorf f v s.received).failure := by
  intro l hl
  rw [Errorf_of_some B f v s l hl]
  exact dispatchErrorf_failure l B f v s

theorem optErrorf_routing (B : Bodies) (a : Nat) (f : String) (v : List Value) (s : State) :
    ∀ l, optCallee s a = some l →
      (finalState (Options.Errorf B (some a) f v s)).badgerLogger
        = (runWrites (l.body B .Errorf f v s.received).writes s).badgerLogger ∧
      (finalState (Options.Errorf B (some a) f v s)).options
        = (runWrites (l.body B .Errorf f v s.received).writes s).options := by
  intro l hl
  rw [optErrorf_of_some B a f v s l hl]
  exact dispatchErrorf_routing l B f v s

theorem optErrorf_failure (B : Bodies) (a : Nat) (f : String) (v : List Value) (s : State) :
    ∀ l, optCallee s a = some l →
      failureOf (Options.Errorf B (some a) f v s) = (l.body B .Errorf f v s.received).failure := by
  intro l hl
  rw [optErrorf_of_some B a f v s l hl]
  exact dispatchErrorf_failure l B f v s

theorem Infof_routing (B : Bodies) (f : String) (v : List Value) (s : State) :
    ∀ l, s.badgerLogger = some l →
      (finalState (Infof B f v s)).badgerLogger
        = (runWrites (l.body B .Infof f v s.received).writes s).badgerLogger ∧
      (finalState (Infof B f v s)).options
        = (runWrites (l.body B .Infof f v s.received).writes s).options := by
  intro l hl
  rw [Infof_of_some B f v s l hl]
  exact dispatchInfof_routing l B f v s

theorem Infof_failure (B : Bodies) (f : String) (v : List Value) (s : State) :
    ∀ l, s.badgerLogger = some l →
      failureOf (Infof B f v s) = (l.body B .Infof f v s.received).failure := by
  intro l hl
  rw [Infof_of_some B f v s l hl]
  exact dispatchInfof_failure l B f v s

theorem optInfof_routing (B : Bodies) (a : Nat) (f : String) (v : List Value) (s : State) :
    ∀ l, optCallee s a = some l →
      (finalState (Options.Infof B (some a) f v s)).badgerLogger
        = (runWrites (l.body B .Infof f v s.received).writes s).badgerLogger ∧
      (finalState (Options.Infof B (some a) f v s)).options
        = (runWrites (l.body B .Infof f v s.received).writes s).options := by
  intro l hl
  rw [optInfof_of_some B a f v s l hl]
  exact dispatchInfof_routing l B f v s

theorem optInfof_failure (B : Bodies) (a : Nat) (f : String) (v : List Value) (s : State) :
    ∀ l, optCallee s a = some l →
      failureOf (Options.Infof B (some a) f v s) = (l.body B .Infof f v s.received).failure := by
  intro l hl
  rw [optInfof_of_some B a f v s l hl]
  exact dispatchInfof_failure l B f v s

theorem Warningf_routing (B : Bodies) (f : String) (v : List Value) (s : State) :
    ∀ l, s.badgerLogger = some l →
      (finalState (Warningf B f v s)).badgerLogger
        = (runWrites (l.body B .Warningf f v s.received).writes s).badgerLogger ∧
      (finalState (Warningf B f v s)).options
        = (runWrites (l.body B .Warningf f v s.received).writes s).options := by
  intro l hl
  rw [Warningf_of_some B f v s l hl]
  exact dispatchWarningf_routing l B f v s

theorem Warningf_failure (B : Bodies) (f : String) (v : List Value) (s : State) :
    ∀ l, s.badgerLogger = some l →
      failureOf (Warningf B f v s) = (l.body B .Warningf f v s.received).failure := by
  intro l hl
  rw [Warningf_of_some B f v s l hl]
  exact dispatchWarningf_failure l B f v s

theorem optWarningf_routing (B : Bodies) (a : Nat) (f : String) (v : List Value) (s : State) :
    ∀ l, optCallee s a = some l →
      (finalState (Options.Warningf B (some a) f v s)).badgerLogger
        = (runWrites (l.body B .Warningf f v s.received).writes s).badgerLogger ∧
      (finalState (Options.Warningf B (some a) f v s)).options
        = (runWrites (l.body B .Warningf f v s.received).writes s).options := by
  intro l hl
  rw [optWarningf_of_some B a f v s l hl]
  exact dispatchWarningf_routing l B f v s

theorem optWarningf_failure (B : Bodies) (a : Nat) (f : String) (v : List Value) (s : State) :
    ∀ l, optCallee s a = some l →
      failureOf (Options.Warningf B (some a) f v s) = (l.body B .Warningf f v s.received).failure := by
  intro l hl
  rw [optWarningf_of_some B a f v s l hl]
  exact dispatchWarningf_failure l B f v s

theorem optCallee_eq_none (s : State) (a : Nat) :
    optCallee s a = none ↔ (s.options a).Logger = none ∧ s.badgerLogger = none := by
  unfold optCallee
  cases (s.options a).Logger <;> simp

theorem optCallee_eq_some (s : State) (a : Nat) (l : Logger) :
    optCallee s a = some l ↔
      ((s.options a).Logger = some l ∨
        ((s.options a).Logger = none ∧ s.badgerLogger = some l)) := by
  unfold optCallee
  cases (s.options a).Logger <;> simp

theorem Body.failure_ne_nilDereference (b : Body) : b.failure ≠ some .nilDereference := by
  unfold Body.failure
  cases b.panics <;> simp

theorem Body.failure_eq_none (b : Body) (h : b.panics = false) : b.failure = none := by
  unfold Body.failure
  rw [h]

theorem Logger.body_panics_false (B : Bodies)
    (hB : ∀ id m f v h, (B id m f v h).panics = false)
    (l : Logger) (m : Method) (f : String) (v : List Value) (h : List Call) :
    (l.body B m f v h).panics = false := by
  cases l with
  | defaultLogger => rfl
  | external id => exact hB id m f v h

/-! ## What a logging call does, by the logger it invokes -/

theorem call_fails_exactly (r : Except Panic State) (s : State) (callee : Option Logger)
    (bodyOf : Logger → Body) (nilCase : Prop) (invoked : Logger → Prop)
    (hn : nilCase ↔ callee = none) (hi : ∀ l, invoked l ↔ callee = some l)
    (hnil : callee = none → r = .error ⟨.nilDereference, s⟩)
    (hfail : ∀ l, callee = some l → failureOf r = (bodyOf l).failure) :
    FailsExactlyWhen r nilCase invoked bodyOf := by
  refine ⟨?_, ?_, ?_⟩
  · rw [hn]
    constructor
    · intro hf
      cases hc : callee with
      | none => rfl
      | some l =>
        rw [hfail l hc] at hf
        exact absurd hf (Body.failure_ne_nilDereference _)
    · intro hc
      rw [hnil hc]
      rfl
  · intro hnot
    cases hc : callee with
    | none => exact absurd (hn.2 hc) hnot
    | some l => exact ⟨l, (hi l).2 hc⟩
  · intro l hl
    exact hfail l ((hi l).1 hl)

theorem call_routing (r : Except Panic State) (s : State) (callee : Option Logger)
    (bodyOf : Logger → Body) (invoked : Logger → Prop)
    (hi : ∀ l, invoked l ↔ callee = some l)
    (hroute : ∀ l, callee = some l →
      (finalState r).badgerLogger = (runWrites (bodyOf l).writes s).badgerLogger ∧
      (finalState r).options = (runWrites (bodyOf l).writes s).options) :
    RoutingWrittenBy r s invoked bodyOf :=
  fun l hl => hroute l ((hi l).1 hl)

theorem call_keeps_routing (r : Except Panic State) (s : State) (callee : Option Logger)
    (bodyOf : Logger → Body)
    (hnil : callee = none → r = .error ⟨.nilDereference, s⟩)
    (hroute : ∀ l, callee = some l →
      (finalState r).badgerLogger = (runWrites (bodyOf l).writes s).badgerLogger ∧
      (finalState r).options = (runWrites (bodyOf l).writes s).options)
    (hquiet : ∀ l, (bodyOf l).writes = []) :
    KeepsRouting r s := by
  cases hc : callee with
  | none =>
    rw [hnil hc]
    exact ⟨rfl, rfl⟩
  | some l =>
    have h := hroute l hc
    rw [hquiet l] at h
    exact h

theorem Logger.body_writes_nil (B : Bodies) (m : Method) (f : String) (v : List Value)
    (h : List Call) (hB : ∀ id, (B id m f v h).writes = []) (l : Logger) :
    (l.body B m f v h).writes = [] := by
  cases l with
  | defaultLogger => rfl
  | external id => exact hB id

theorem runWrites_global_nonnil (ws : List Write) (hws : ∀ w ∈ ws, w ≠ .SetLogger none)
    (s : State) (hs : s.badgerLogger ≠ none) : (runWrites ws s).badgerLogger ≠ none := by
  induction ws generalizing s with
  | nil => exact hs
  | cons w ws ih =>
    have hw : w ≠ .SetLogger none := hws w (List.mem_cons_self _ _)
    have hrest : ∀ x ∈ ws, x ≠ .SetLogger none := fun x hx => hws x (List.mem_cons_of_mem _ hx)
    refine ih hrest _ ?_
    cases w with
    | SetLogger l =>
      cases l with
      | none => exact absurd rfl hw
      | some l => simp [Write.apply, SetLogger]
    | assignOptionsLogger a l => exact hs

theorem Logger.body_no_nil_SetLogger (B : Bodies)
    (hB : ∀ id m f v h, ∀ w ∈ (B id m f v h).writes, w ≠ .SetLogger none)
    (l : Logger) (m : Method) (f : String) (v : List Value) (h : List Call) :
    ∀ w ∈ (l.body B m f v h).writes, w ≠ .SetLogger none := by
  cases l with
  | defaultLogger => intro w hw; simp [Logger.body] at hw
  | external id => exact hB id m f v h

theorem call_global_nonnil (r : Except Panic State) (s : State) (callee : Option Logger)
    (bodyOf : Logger → Body)
    (hnil : callee = none → r = .error ⟨.nilDereference, s⟩)
    (hroute : ∀ l, callee = some l →
      (finalState r).badgerLogger = (runWrites (bodyOf l).writes s).badgerLogger ∧
      (finalState r).options = (runWrites (bodyOf l).writes s).options)
    (hws : ∀ l, ∀ w ∈ (bodyOf l).writes, w ≠ .SetLogger none)
    (hs : s.badgerLogger ≠ none) : (finalState r).badgerLogger ≠ none := by
  cases hc : callee with
  | none =>
    rw [hnil hc]
    exact hs
  | some l =>
    rw [(hroute l hc).1]
    exact runWrites_global_nonnil _ (hws l) s hs

/-! ## C6: the global logger after initialisation -/

/-- C6, as stated, fails: `SetLogger` accepts nil, so after initialisation the
single operation `SetLogger(nil)` reaches a state whose global logger is nil. -/
theorem SetLogger_nil_reaches_nil_global :
    ∃ t ∈ trajectory quietBodies [.setter (.SetLogger none)] (postInit (fun _ => ⟨none⟩)),
      t.badgerLogger = none :=
  ⟨SetLogger none (postInit (fun _ => ⟨none⟩)), by simp [trajectory, step, Setter.apply], rfl⟩

theorem step_keeps_global_nonnil (B : Bodies)
    (hB : ∀ id m f v h, ∀ w ∈ (B id m f v h).writes, w ≠ .SetLogger none)
    (op : Op) (hop : op ≠ .setter (.SetLogger none))
    (s : State) (hs : s.badgerLogger ≠ none) :
    (finalState (step B op s)).badgerLogger ≠ none := by
  cases op with
  | setter w =>
    cases w with
    | SetLogger l =>
      cases l with
      | none => exact absurd rfl hop
      | some l => simp [step, Setter.apply, SetLogger, finalState]
    | UseDefaultLogger => simp [step, Setter.apply, UseDefaultLogger, SetLogger, finalState]
  | Errorf f v =>
    exact call_global_nonnil (Errorf B f v s) s s.badgerLogger
      (fun l => l.body B .Errorf f v s.received) (Errorf_of_nil B f v s)
      (Errorf_routing B f v s) (fun l => Logger.body_no_nil_SetLogger B hB l _ _ _ _) hs
  | Infof f v =>
    exact call_global_nonnil (Infof B f v s) s s.badgerLogger
      (fun l => l.body B .Infof f v s.received) (Infof_of_nil B f v s)
      (Infof_routing B f v s) (fun l => Logger.body_no_nil_SetLogger B hB l _ _ _ _) hs
  | Warningf f v =>
    exact call_global_nonnil (Warningf B f v s) s s.badgerLogger
      (fun l => l.body B .Warningf f v s.received) (Warningf_of_nil B f v s)
      (Warningf_routing B f v s) (fun l => Logger.body_no_nil_SetLogger B hB l _ _ _ _) hs
  | optErrorf opt f v =>
    cases opt with
    | none => exact hs
    | some a =>
      exact call_global_nonnil (Options.Errorf B (some a) f v s) s (optCallee s a)
        (fun l => l.body B .Errorf f v s.received) (optErrorf_of_nil B a f v s)
        (optErrorf_routing B a f v s) (fun l => Logger.body_no_nil_SetLogger B hB l _ _ _ _) hs
  | optInfof opt f v =>
    cases opt with
    | none => exact hs
    | some a =>
      exact call_global_nonnil (Options.Infof B (some a) f v s) s (optCallee s a)
        (fun l => l.body B .Infof f v s.received) (optInfof_of_nil B a f v s)
        (optInfof_routing B a f v s) (fun l => Logger.body_no_nil_SetLogger B hB l _ _ _ _) hs
  | optWarningf opt f v =>
    cases opt with
    | none => exact hs
    | some a =>
      exact call_global_nonnil (Options.Warningf B (some a) f v s) s (optCallee s a)
        (fun l => l.body B .Warningf f v s.received) (optWarningf_of_nil B a f v s)
        (optWarningf_routing B a f v s) (fun l => Logger.body_no_nil_SetLogger B hB l _ _ _ _) hs

theorem trajectory_global_nonnil (B : Bodies)
    (hB : ∀ id m f v h, ∀ w ∈ (B id m f v h).writes, w ≠ .SetLogger none)
    (ops : List Op) (hops : ∀ op ∈ ops, op ≠ .setter (.SetLogger none)) :
    ∀ s : State, s.badgerLogger ≠ none →
      ∀ t ∈ trajectory B ops s, t.badgerLogger ≠ none := by
  induction ops with
  | nil =>
    intro s hs t ht
    simp only [trajectory, List.mem_singleton] at ht
    subst ht
    exact hs
  | cons op ops ih =>
    intro s hs t ht
    have hop : op ≠ .setter (.SetLogger none) := hops op (List.mem_cons_self _ _)
    have hrest : ∀ o ∈ ops, o ≠ .setter (.SetLogger none) :=
      fun o ho => hops o (List.mem_cons_of_mem _ ho)
    have hfin := step_keeps_global_nonnil B hB op hop s hs
    simp only [trajectory, List.mem_cons] at ht
    rcases ht with ht | ht
    · subst ht
      exact hs
    · cases hstep : step B op s with
      | error p =>
        rw [hstep] at ht hfin
        simp only [List.mem_singleton] at ht
        subst ht
        exact hfin
      | ok s' =>
        rw [hstep] at ht hfin
        exact ih hrest s' hfin t ht

/-- C6, amended: after package initialisation, along every sequence of public
operations in which no `SetLogger` call passes nil, whether the call is made by
the program or by the body of a logger's method (`SetLogger` with a non-nil
logger, `UseDefaultLogger`, the global-path and the configuration-scoped
logging calls), the global logger is non-nil in every state reached, the state
a panic leaves included. -/
theorem global_nonnil_without_nil_SetLogger (B : Bodies) (opts : Nat → Options)
    (ops : List Op)
    (hops : ∀ op ∈ ops, op ≠ .setter (.SetLogger none))
    (hB : ∀ id m f v h, ∀ w ∈ (B id m f v h).writes, w ≠ .SetLogger none) :
    ∀ t ∈ trajectory B ops (postInit opts), t.badgerLogger ≠ none :=
  trajectory_global_nonnil B hB ops hops (postInit opts)
    (by simp [postInit, init, UseDefaultLogger, SetLogger])

theorem sampleBodies_no_nil_SetLogger :
    ∀ id m f v h, ∀ w ∈ (sampleBodies id m f v h).writes, w ≠ .SetLogger none := by
  intro id m f v h w hw
  unfold sampleBodies at hw
  split_ifs at hw <;> simp at hw
  subst hw
  simp

/-- C6, amended, at a concrete run of four operations: logger 9 is installed,
its `Infof` installs logger 8, the default logger is restored, and the last
call panics on a nil `*Options`; the four states before it and the state the
panic leaves have a non-nil global logger. -/
theorem global_nonnil_without_nil_SetLogger_witness :
    (∀ op ∈ [Op.setter (.SetLogger (some (.external 9))), .Infof "up" [],
        .setter .UseDefaultLogger, .optErrorf none "x" []],
      op ≠ .setter (.SetLogger none)) ∧
    (trajectory sampleBodies [Op.setter (.SetLogger (some (.external 9))), .Infof "up" [],
        .setter .UseDefaultLogger, .optErrorf none "x" []]
        (postInit (fun _ => ⟨none⟩))).map State.badgerLogger
      = [some .defaultLogger, some (.external 9), some (.external 8), some .defaultLogger,
          some .defaultLogger] ∧
    ∀ t ∈ trajectory sampleBodies [Op.setter (.SetLogger (some (.external 9))), .Infof "up" [],
        .setter .UseDefaultLogger, .optErrorf none "x" []]
        (postInit (fun _ => ⟨none⟩)), t.badgerLogger ≠ none :=
  ⟨by simp, rfl,
    global_nonnil_without_nil_SetLogger sampleBodies (fun _ => ⟨none⟩) _ (by simp)
      sampleBodies_no_nil_SetLogger⟩

/-! ## C7: the ways a logging call fails -/

/-- C7, as stated, fails: with the non-nil logger 13 installed as the global
logger, whose methods panic, the global-path `Infof` fails although the global
singleton is not nil, and so does `opt.Infof` on an `Options` object whose
override is that logger. -/
theorem logger_panic_fails_with_nonnil_global :
    (routedState (some (.external 13)) none).badgerLogger = some (.external 13) ∧
    failureOf (Infof sampleBodies "x" [] (routedState (some (.external 13)) none))
      = some .loggerPanic ∧
    ((routedState (some .defaultLogger) (some (.external 13))).options 0).Logger
      = some (.external 13) ∧
    failureOf (Options.Infof sampleBodies (some 0) "x" []
        (routedState (some .defaultLogger) (some (.external 13)))) = some .loggerPanic := by
  refine ⟨rfl, rfl, rfl, rfl⟩

theorem failsOnlyWhen_of_returning (r : Except Panic State) (nilCase : Prop)
    (invoked : Logger → Prop) (bodyOf : Logger → Body)
    (h : FailsExactlyWhen r nilCase invoked bodyOf)
    (hret : ∀ l, (bodyOf l).panics = false) : FailsOnlyWhen r nilCase := by
  refine ⟨h.1, ?_⟩
  intro hnot
  obtain ⟨l, hl⟩ := h.2.1 hnot
  have hf := h.2.2 l hl
  rw [Body.failure_eq_none _ (hret l)] at hf
  exact (failureOf_eq_none_iff r).1 hf

/-- C7, amended: a logging call fails in two ways and no other.  A
global-path `Errorf`, `Infof` or `Warningf` call panics with a nil dereference
exactly when the global logger is nil; otherwise it invokes the method of the
global logger and fails exactly when the body of that method panics.  A
configuration-scoped call on a non-nil `*Options` panics with a nil
dereference exactly when the `Logger` field of the object is nil and the
global logger is nil; otherwise it invokes the method of the override, or of
the global logger when there is no override, and fails exactly when the body
of that method panics.  In every other case the call returns normally.  The
methods of the default logger do not panic; and when no method of an outside
logger panics, a call fails exactly in the nil case. -/
theorem failure_exactly_when_nil_or_logger_panic (B : Bodies) (s : State) (a : Nat)
    (fmt : String) (args : List Value) :
    FailsExactlyWhen (Errorf B fmt args s) (s.badgerLogger = none)
      (fun l => s.badgerLogger = some l) (fun l => l.body B .Errorf fmt args s.received) ∧
    FailsExactlyWhen (Infof B fmt args s) (s.badgerLogger = none)
      (fun l => s.badgerLogger = some l) (fun l => l.body B .Infof fmt args s.received) ∧
    FailsExactlyWhen (Warningf B fmt args s) (s.badgerLogger = none)
      (fun l => s.badgerLogger = some l) (fun l => l.body B .Warningf fmt args s.received) ∧
    FailsExactlyWhen (Options.Errorf B (some a) fmt args s)
      ((s.options a).Logger = none ∧ s.badgerLogger = none)
      (fun l => (s.options a).Logger = some l ∨
        ((s.options a).Logger = none ∧ s.badgerLogger = some l))
      (fun l => l.body B .Errorf fmt args s.received) ∧
    FailsExactlyWhen (Options.Infof B (some a) fmt args s)
      ((s.options a).Logger = none ∧ s.badgerLogger = none)
      (fun l => (s.options a).Logger = some l ∨
        ((s.options a).Logger = none ∧ s.badgerLogger = some l))
      (fun l => l.body B .Infof fmt args s.received) ∧
    FailsExactlyWhen (Options.Warningf B (some a) fmt args s)
      ((s.options a).Logger = none ∧ s.badgerLogger = none)
      (fun l => (s.options a).Logger = some l ∨
        ((s.options a).Logger = none ∧ s.badgerLogger = some l))
      (fun l => l.body B .Warningf fmt args s.received) ∧
    (∀ m : Method, (Logger.defaultLogger.body B m fmt args s.received).panics = false) ∧
    ((∀ id m f v h, (B id m f v h).panics = false) →
      FailsOnlyWhen (Errorf B fmt args s) (s.badgerLogger = none) ∧
      FailsOnlyWhen (Infof B fmt args s) (s.badgerLogger = none) ∧
      FailsOnlyWhen (Warningf B fmt args s) (s.badgerLogger = none) ∧
      FailsOnlyWhen (Options.Errorf B (some a) fmt args s)
        ((s.options a).Logger = none ∧ s.badgerLogger = none) ∧
      FailsOnlyWhen (Options.Infof B (some a) fmt args s)
        ((s.options a).Logger = none ∧ s.badgerLogger = none) ∧
      FailsOnlyWhen (Options.Warningf B (some a) fmt args s)
        ((s.options a).Logger = none ∧ s.badgerLogger = none)) := by
  have hE := call_fails_exactly (Errorf B fmt args s) s s.badgerLogger
    (fun l => l.body B .Errorf fmt args s.received) (s.badgerLogger = none)
    (fun l => s.badgerLogger = some l) Iff.rfl (fun _ => Iff.rfl)
    (Errorf_of_nil B fmt args s) (Errorf_failure B fmt args s)
  have hI := call_fails_exactly (Infof B fmt args s) s s.badgerLogger
    (fun l => l.body B .Infof fmt args s.received) (s.badgerLogger = none)
    (fun l => s.badgerLogger = some l) Iff.rfl (fun _ => Iff.rfl)
    (Infof_of_nil B fmt args s) (Infof_failure B fmt args s)
  have hW := call_fails_exactly (Warningf B fmt args s) s s.badgerLogger
    (fun l => l.body B .Warningf fmt args s.received) (s.badgerLogger = none)
    (fun l => s.badgerLogger = some l) Iff.rfl (fun _ => Iff.rfl)
    (Warningf_of_nil B fmt args s) (Warningf_failure B fmt args s)
  have hoE := call_fails_exactly (Options.Errorf B (some a) fmt args s) s (optCallee s a)
    (fun l => l.body B .Errorf fmt args s.received)
    ((s.options a).Logger = none ∧ s.badgerLogger = none)
    (fun l => (s.options a).Logger = some l ∨
      ((s.options a).Logger = none ∧ s.badgerLogger = some l))
    (optCallee_eq_none s a).symm (fun l => (optCallee_eq_some s a l).symm)
    (optErrorf_of_nil B a fmt args s) (optErrorf_failure B a fmt args s)
  have hoI := call_fails_exactly (Options.Infof B (some a) fmt args s) s (optCallee s a)
    (fun l => l.body B .Infof fmt args s.received)
    ((s.options a).Logger = none ∧ s.badgerLogger = none)
    (fun l => (s.options a).Logger = some l ∨
      ((s.options a).Logger = none ∧ s.badgerLogger = some l))
    (optCallee_eq_none s a).symm (fun l => (optCallee_eq_some s a l).symm)
    (optInfof_of_nil B a fmt args s) (optInfof_failure B a fmt args s)
  have hoW := call_fails_exactly (Options.Warningf B (some a) fmt args s) s (optCallee s a)
    (fun l => l.body B .Warningf fmt args s.received)
    ((s.options a).Logger = none ∧ s.badgerLogger = none)
    (fun l => (s.options a).Logger = some l ∨
      ((s.options a).Logger = none ∧ s.badgerLogger = some l))
    (optCallee_eq_none s a).symm (fun l => (optCallee_eq_some s a l).symm)
    (optWarningf_of_nil B a fmt args s) (optWarningf_failure B a fmt args s)
  refine ⟨hE, hI, hW, hoE, hoI, hoW, fun _ => rfl, ?_⟩
  intro hB
  exact ⟨failsOnlyWhen_of_returning _ _ _ _ hE (fun l => Logger.body_panics_false B hB l _ _ _ _),
    failsOnlyWhen_of_returning _ _ _ _ hI (fun l => Logger.body_panics_false B hB l _ _ _ _),
    failsOnlyWhen_of_returning _ _ _ _ hW (fun l => Logger.body_panics_false B hB l _ _ _ _),
    failsOnlyWhen_of_returning _ _ _ _ hoE (fun l => Logger.body_panics_false B hB l _ _ _ _),
    failsOnlyWhen_of_returning _ _ _ _ hoI (fun l => Logger.body_panics_false B hB l _ _ _ _),
    failsOnlyWhen_of_returning _ _ _ _ hoW (fun l => Logger.body_panics_false B hB l _ _ _ _)⟩

/-- C7, amended, at concrete inputs: before initialisation the global-path
call panics with a nil dereference; after it the same call returns normally;
and with loggers that all return, a call with a nil global logger and no
override fails. -/
theorem failure_exactly_when_nil_or_logger_panic_witness :
    failureOf (Infof sampleBodies "x" [] (zeroState (fun _ => ⟨none⟩)))
      = some .nilDereference ∧
    failureOf (Infof sampleBodies "x" [] (postInit (fun _ => ⟨none⟩)))
      = (Logger.defaultLogger.body sampleBodies .Infof "x" [] []).failure ∧
    (∀ id m f v h, (quietBodies id m f v h).panics = false) ∧
    failureOf (Options.Errorf quietBodies (some 0) "x" [] (zeroState (fun _ => ⟨none⟩)))
      = some .nilDereference :=
  ⟨((failure_exactly_when_nil_or_logger_panic sampleBodies (zeroState (fun _ => ⟨none⟩)) 0
      "x" []).2.1).1.2 rfl,
   ((failure_exactly_when_nil_or_logger_panic sampleBodies (postInit (fun _ => ⟨none⟩)) 0
      "x" []).2.1).2.2 .defaultLogger rfl,
   fun _ _ _ _ _ => rfl,
   (((failure_exactly_when_nil_or_logger_panic quietBodies (zeroState (fun _ => ⟨none⟩)) 0
      "x" []).2.2.2.2.2.2.2 (fun _ _ _ _ _ => rfl)).2.2.2.1).1.2 ⟨rfl, rfl⟩⟩

/-! ## C8: `UseDefaultLogger` is idempotent -/

/-- C8: from every state, calling `UseDefaultLogger()` twice in a row reaches
the state reached by calling it once, and in that state the global logger is
the default logger. -/
theorem UseDefaultLogger_idempotent (s : State) :
    UseDefaultLogger (UseDefaultLogger s) = UseDefaultLogger s ∧
    (UseDefaultLogger s).badgerLogger = some .defaultLogger :=
  ⟨rfl, rfl⟩

/-! ## C9: the last writer of the global logger wins -/

theorem applySetters_append (ws : List Setter) (w : Setter) (s : State) :
    applySetters (ws ++ [w]) s = w.apply (applySetters ws s) := by
  induction ws generalizing s with
  | nil => rfl
  | cons x xs ih => simp only [List.cons_append, applySetters]; exact ih (x.apply s)

theorem Setter.apply_badgerLogger (w : Setter) (s : State) :
    (w.apply s).badgerLogger = w.argument := by
  cases w <;> rfl

/-- C9: after any non-empty sequence of `SetLogger(l_i)` and
`UseDefaultLogger()` calls the global logger is the argument of the last call
of the sequence (the default logger when that call is `UseDefaultLogger`),
whatever the earlier calls and the starting state were; and after
`SetLogger(l)` followed by `UseDefaultLogger()` the global logger is the
default logger, and each global-path call, `Errorf`, `Infof` and `Warningf`,
returns normally, is received by the default logger and by no one else, puts
its one tagged request on the default sink, and leaves the calls received by
every outside logger, `l` among them, as they were. -/
theorem last_writer_wins (B : Bodies) (ws : List Setter) (hne : ws ≠ []) (s : State)
    (l : Option Logger) (fmt : String) (args : List Value) :
    (applySetters ws s).badgerLogger = (ws.getLast hne).argument ∧
    (UseDefaultLogger (SetLogger l s)).badgerLogger = some .defaultLogger ∧
    ((Errorf B fmt args (UseDefaultLogger (SetLogger l s))).map State.received
        = .ok (s.received ++ [⟨.defaultLogger, .Errorf, fmt, args⟩]) ∧
      (Errorf B fmt args (UseDefaultLogger (SetLogger l s))).map State.sink
        = .ok (s.sink ++ [⟨"ERROR: " ++ fmt, args⟩])) ∧
    ((Infof B fmt args (UseDefaultLogger (SetLogger l s))).map State.received
        = .ok (s.received ++ [⟨.defaultLogger, .Infof, fmt, args⟩]) ∧
      (Infof B fmt args (UseDefaultLogger (SetLogger l s))).map State.sink
        = .ok (s.sink ++ [⟨"INFO: " ++ fmt, args⟩])) ∧
    ((Warningf B fmt args (UseDefaultLogger (SetLogger l s))).map State.received
        = .ok (s.received ++ [⟨.defaultLogger, .Warningf, fmt, args⟩]) ∧
      (Warningf B fmt args (UseDefaultLogger (SetLogger l s))).map State.sink
        = .ok (s.sink ++ [⟨"WARNING: " ++ fmt, args⟩])) ∧
    (∀ id : Nat,
      (Errorf B fmt args (UseDefaultLogger (SetLogger l s))).map (callsTo (.external id))
        = .ok (callsTo (.external id) s) ∧
      (Infof B fmt args (UseDefaultLogger (SetLogger l s))).map (callsTo (.external id))
        = .ok (callsTo (.external id) s) ∧
      (Warningf B fmt args (UseDefaultLogger (SetLogger l s))).map (callsTo (.external id))
        = .ok (callsTo (.external id) s)) := by
  refine ⟨?_, rfl, ⟨rfl, rfl⟩, ⟨rfl, rfl⟩, ⟨rfl, rfl⟩, ?_⟩
  · obtain ⟨ws', w, rfl⟩ : ∃ ws' w, ws = ws' ++ [w] :=
      ⟨ws.dropLast, ws.getLast hne, (List.dropLast_append_getLast hne).symm⟩
    rw [applySetters_append, Setter.apply_badgerLogger, List.getLast_append_singleton]
  · intro id
    refine ⟨?_, ?_, ?_⟩ <;>
      exact congrArg Except.ok (callsTo_append_other (.external id) s _ (by simp))

/-- C9 at a concrete sequence: a custom logger, nil, the default logger, then
another custom logger, which is the one left installed. -/
theorem last_writer_wins_witness :
    ([Setter.SetLogger (some (.external 1)), .SetLogger none, .UseDefaultLogger,
        .SetLogger (some (.external 3))] ≠ []) ∧
    (applySetters [Setter.SetLogger (some (.external 1)), .SetLogger none, .UseDefaultLogger,
        .SetLogger (some (.external 3))] (zeroState (fun _ => ⟨none⟩))).badgerLogger
      = some (.external 3) :=
  ⟨by simp, (last_writer_wins sampleBodies _ (by simp) (zeroState (fun _ => ⟨none⟩)) none
      "" []).1⟩

/-! ## C10: what each operation leaves unchanged -/

/-- C10, as stated, fails: with logger 9 installed as the global logger, whose
`Infof` calls the exported `SetLogger` with logger 8, the global-path `Infof`
returns normally and the global logger is no longer the one it was before the
call. -/
theorem logger_body_changes_global :
    (routedState (some (.external 9)) none).badgerLogger = some (.external 9) ∧
    failureOf (Infof sampleBodies "x" [] (routedState (some (.external 9)) none)) = none ∧
    (finalState (Infof sampleBodies "x" [] (routedState (some (.external 9)) none))).badgerLogger
      = some (.external 8) ∧
    (finalState (Infof sampleBodies "x" [] (routedState (some (.external 9)) none))).badgerLogger
      ≠ (routedState (some (.external 9)) none).badgerLogger := by
  refine ⟨rfl, rfl, rfl, ?_⟩
  decide

/-- C10, amended: the logging functions write no routing state themselves.
After every global-path or configuration-scoped `Errorf`, `Infof` or
`Warningf` call, returned or panicked, the global logger and every `Options`
object are what the writes made by the body of the invoked method (its calls
of `SetLogger`, its assignments to a `Logger` field) make of those before the
call; so they are exactly as before the call whenever that body makes no such
write, as the methods of the default logger do not.  `SetLogger` and
`UseDefaultLogger` leave every `Options` object, the calls received and the
sink as they were, changing only the global logger. -/
theorem routing_frame (B : Bodies) (s : State) (a : Nat) (opt : OptionsPtr) (fmt : String)
    (args : List Value) (l : Option Logger) :
    RoutingWrittenBy (Errorf B fmt args s) s
      (fun r => s.badgerLogger = some r) (fun r => r.body B .Errorf fmt args s.received) ∧
    RoutingWrittenBy (Infof B fmt args s) s
      (fun r => s.badgerLogger = some r) (fun r => r.body B .Infof fmt args s.received) ∧
    RoutingWrittenBy (Warningf B fmt args s) s
      (fun r => s.badgerLogger = some r) (fun r => r.body B .Warningf fmt args s.received) ∧
    RoutingWrittenBy (Options.Errorf B (some a) fmt args s) s
      (fun r => (s.options a).Logger = some r ∨
        ((s.options a).Logger = none ∧ s.badgerLogger = some r))
      (fun r => r.body B .Errorf fmt args s.received) ∧
    RoutingWrittenBy (Options.Infof B (some a) fmt args s) s
      (fun r => (s.options a).Logger = some r ∨
        ((s.options a).Logger = none ∧ s.badgerLogger = some r))
      (fun r => r.body B .Infof fmt args s.received) ∧
    RoutingWrittenBy (Options.Warningf B (some a) fmt args s) s
      (fun r => (s.options a).Logger = some r ∨
        ((s.options a).Logger = none ∧ s.badgerLogger = some r))
      (fun r => r.body B .Warningf fmt args s.received) ∧
    ((∀ id m, (B id m fmt args s.received).writes = []) →
      KeepsRouting (Errorf B fmt args s) s ∧
      KeepsRouting (Infof B fmt args s) s ∧
      KeepsRouting (Warningf B fmt args s) s ∧
      KeepsRouting (Options.Errorf B opt fmt args s) s ∧
      KeepsRouting (Options.Infof B opt fmt args s) s ∧
      KeepsRouting (Options.Warningf B opt fmt args s) s) ∧
    (∀ m : Method, (Logger.defaultLogger.body B m fmt args s.received).writes = []) ∧
    SetLogger l s = { s with badgerLogger := l } ∧
    UseDefaultLogger s = { s with badgerLogger := some .defaultLogger } ∧
    (SetLogger l s).options = s.options ∧
    (UseDefaultLogger s).options = s.options := by
  refine ⟨?_, ?_, ?_, ?_, ?_, ?_, ?_, fun _ => rfl, rfl, rfl, rfl, rfl⟩
  · exact call_routing _ s s.badgerLogger _ _ (fun _ => Iff.rfl) (Errorf_routing B fmt args s)
  · exact call_routing _ s s.badgerLogger _ _ (fun _ => Iff.rfl) (Infof_routing B fmt args s)
  · exact call_routing _ s s.badgerLogger _ _ (fun _ => Iff.rfl) (Warningf_routing B fmt args s)
  · exact call_routing _ s (optCallee s a) _ _ (fun r => (optCallee_eq_some s a r).symm)
      (optErrorf_routing B a fmt args s)
  · exact call_routing _ s (optCallee s a) _ _ (fun r => (optCallee_eq_some s a r).symm)
      (optInfof_routing B a fmt args s)
  · exact call_routing _ s (optCallee s a) _ _ (fun r => (optCallee_eq_some s a r).symm)
      (optWarningf_routing B a fmt args s)
  · intro hB
    refine ⟨?_, ?_, ?_, ?_, ?_, ?_⟩
    · exact call_keeps_routing _ s s.badgerLogger _ (Errorf_of_nil B fmt args s)
        (Errorf_routing B fmt args s)
        (Logger.body_writes_nil B .Errorf fmt args s.received (fun id => hB id .Errorf))
    · exact call_keeps_routing _ s s.badgerLogger _ (Infof_of_nil B fmt args s)
        (Infof_routing B fmt args s)
        (Logger.body_writes_nil B .Infof fmt args s.received (fun id => hB id .Infof))
    · exact call_keeps_routing _ s s.badgerLogger _ (Warningf_of_nil B fmt args s)
        (Warningf_routing B fmt args s)
        (Logger.body_writes_nil B .Warningf fmt args s.received (fun id => hB id .Warningf))
    · cases opt with
      | none => exact ⟨rfl, rfl⟩
      | some b =>
        exact call_keeps_routing _ s (optCallee s b) _ (optErrorf_of_nil B b fmt args s)
          (optErrorf_routing B b fmt args s)
          (Logger.body_writes_nil B .Errorf fmt args s.received (fun id => hB id .Errorf))
    · cases opt with
      | none => exact ⟨rfl, rfl⟩
      | some b =>
        exact call_keeps_routing _ s (optCallee s b) _ (optInfof_of_nil B b fmt args s)
          (optInfof_routing B b fmt args s)
          (Logger.body_writes_nil B .Infof fmt args s.received (fun id => hB id .Infof))
    · cases opt with
      | none => exact ⟨rfl, rfl⟩
      | some b =>
        exact call_keeps_routing _ s (optCallee s b) _ (optWarningf_of_nil B b fmt args s)
          (optWarningf_routing B b fmt args s)
          (Logger.body_writes_nil B .Warningf fmt args s.received (fun id => hB id .Warningf))

/-- C10, amended, at concrete inputs: with loggers that make no write, a
configuration-scoped call that reaches the outside logger 4 through the global
logger returns normally and leaves the routing state as it was; and the
routing state that the `Infof` of logger 9 leaves is the one its own
`SetLogger` call produces. -/
theorem routing_frame_witness :
    (∀ id m, (quietBodies id m "n=%d" [.int 1]
        (routedState (some (.external 4)) none).received).writes = []) ∧
    failureOf (Options.Infof quietBodies (some 0) "n=%d" [.int 1]
        (routedState (some (.external 4)) none)) = none ∧
    KeepsRouting (Options.Infof quietBodies (some 0) "n=%d" [.int 1]
        (routedState (some (.external 4)) none)) (routedState (some (.external 4)) none) ∧
    (finalState (Infof sampleBodies "x" [] (routedState (some (.external 9)) none))).badgerLogger
      = (runWrites [.SetLogger (some (.external 8))]
          (routedState (some (.external 9)) none)).badgerLogger :=
  ⟨fun _ _ => rfl, rfl,
    ((routing_frame quietBodies (routedState (some (.external 4)) none) 0 (some 0) "n=%d"
      [.int 1] none).2.2.2.2.2.2.1 (fun _ _ => rfl)).2.2.2.2.1,
    ((routing_frame sampleBodies (routedState (some (.external 9)) none) 0 none "x"
      [] none).2.1 (.external 9) rfl).1⟩

end Badger
